import Mathlib

/-!
Verification of the GridWorld reinforcement-learning environment
(`gridworld.py` with configuration from `conf/arguments.py`).

The environment's core is embedded shallowly:
* grid cells and displacement actions are pairs of integers,
* rewards are rationals (the Python floats 10.0, -5.0, -0.1 are only
  selected and compared, never combined arithmetically, so this is exact),
* the mutable `GridWorld` object becomes explicit state passing on
  `EnvState`, and the `assert` in `step` becomes an `Except` result paired
  with the (unchanged on failure) state,
* the cosmetic random jitter of the trajectory (np.random.randn) is an
  injected pair of rational samples.
-/

/-- A grid cell or a displacement action: a pair `(x, y)` of integers. -/
abbrev Cell := Int × Int

/-- The auxiliary info mapping returned by `reset` and `step`
(always empty in the source). -/
abbrev Info := List (String × String)

/-- Static configuration of a `GridWorld` instance, mirroring the
constructor parameters of `GridWorld.__init__` together with the reward
constants it copies from `conf.arguments.args`. -/
structure GridConfig where
  env_size : Nat × Nat
  start_state : Cell
  target_state : Cell
  forbidden_states : List Cell
  reward_target : ℚ
  reward_forbidden : ℚ
  reward_step : ℚ
  deriving Repr, DecidableEq

/-- `self.num_states = env_size[0] * env_size[1]` from `GridWorld.__init__`. -/
def GridConfig.num_states (cfg : GridConfig) : Nat :=
  cfg.env_size.1 * cfg.env_size.2

/-- The fixed 5-element action space from `conf/arguments.py`:
up, right, down, left, stay. -/
def action_space : List Cell :=
  [(0, -1), (1, 0), (0, 1), (-1, 0), (0, 0)]

/-- The default configuration built in `conf/arguments.py`
(`args = Arguments()`). -/
def args : GridConfig where
  env_size := (5, 5)
  start_state := (0, 0)
  target_state := (4, 4)
  forbidden_states := [(1, 1), (2, 2), (3, 1)]
  reward_target := 10
  reward_forbidden := -5
  reward_step := -1/10

/-- Mutable episode state of a `GridWorld` instance: the agent position
(`self.agent_state`) and the recorded trajectory (`self.traj`, a list of
floating-point plot coordinates, embedded as rationals). -/
structure EnvState where
  agent_state : Cell
  traj : List (ℚ × ℚ)
  deriving Repr, DecidableEq

/-- `GridWorld._get_next_state_and_reward`, translated branch for branch:

    x, y = state
    new_state = tuple(np.array(state) + np.array(action))
    if y + 1 > self.env_size[1] - 1 and action == (0, 1):    # down
        y = self.env_size[1] - 1; reward = self.reward_forbidden
    elif x + 1 > self.env_size[0] - 1 and action == (1, 0):  # right
        x = self.env_size[0] - 1; reward = self.reward_forbidden
    elif y - 1 < 0 and action == (0, -1):                    # up
        y = 0; reward = self.reward_forbidden
    elif x - 1 < 0 and action == (-1, 0):                    # left
        x = 0; reward = self.reward_forbidden
    elif new_state == self.target_state:
        x, y = self.target_state; reward = self.reward_target
    elif new_state in self.forbidden_states:
        x, y = state; reward = self.reward_forbidden
    else:
        x, y = new_state; reward = self.reward_step
    return (x, y), reward
-/
def get_next_state_and_reward (cfg : GridConfig) (state action : Cell) :
    Cell × ℚ :=
  let x := state.1
  let y := state.2
  let new_state : Cell := (state.1 + action.1, state.2 + action.2)
  if y + 1 > (cfg.env_size.2 : Int) - 1 ∧ action = (0, 1) then
    ((x, (cfg.env_size.2 : Int) - 1), cfg.reward_forbidden)
  else if x + 1 > (cfg.env_size.1 : Int) - 1 ∧ action = (1, 0) then
    (((cfg.env_size.1 : Int) - 1, y), cfg.reward_forbidden)
  else if y - 1 < 0 ∧ action = (0, -1) then
    ((x, 0), cfg.reward_forbidden)
  else if x - 1 < 0 ∧ action = (-1, 0) then
    ((0, y), cfg.reward_forbidden)
  else if new_state = cfg.target_state then
    (cfg.target_state, cfg.reward_target)
  else if new_state ∈ cfg.forbidden_states then
    (state, cfg.reward_forbidden)
  else
    (new_state, cfg.reward_step)

/-- `GridWorld._is_done`: `return state == self.target_state`. -/
def is_done (cfg : GridConfig) (state : Cell) : Bool :=
  state == cfg.target_state

/-- `GridWorld.reset`: sets `agent_state = start_state`,
`traj = [agent_state]`, returns `(agent_state, {})`.  The returned value is
paired with the resulting episode state. -/
def reset (cfg : GridConfig) : (Cell × Info) × EnvState :=
  ((cfg.start_state, []),
   { agent_state := cfg.start_state
     traj := [((cfg.start_state.1 : ℚ), (cfg.start_state.2 : ℚ))] })

/-- `GridWorld.step`.  The Python `assert action in self.action_space`
becomes the `Except.error` branch, which leaves the episode state
untouched.  `randn1` and `randn2` are the two `np.random.randn()` samples
used for the cosmetic trajectory jitter; the stored points are

    x_store = next_state[0] + 0.03 * randn1
    y_store = next_state[1] + 0.03 * randn2
    state_store = (x_store + 0.2 * action[0], y_store + 0.2 * action[1])
    state_store_2 = (next_state[0], next_state[1])

and the call returns `(next_state, reward, done, {})`. -/
def step (cfg : GridConfig) (env : EnvState) (action : Cell)
    (randn1 randn2 : ℚ) :
    Except String (Cell × ℚ × Bool × Info) × EnvState :=
  if action ∈ action_space then
    let res := get_next_state_and_reward cfg env.agent_state action
    let next_state := res.1
    let reward := res.2
    let done := is_done cfg next_state
    let x_store : ℚ := (next_state.1 : ℚ) + 3/100 * randn1
    let y_store : ℚ := (next_state.2 : ℚ) + 3/100 * randn2
    let state_store : ℚ × ℚ :=
      (x_store + 1/5 * (action.1 : ℚ), y_store + 1/5 * (action.2 : ℚ))
    let state_store_2 : ℚ × ℚ := ((next_state.1 : ℚ), (next_state.2 : ℚ))
    (Except.ok (next_state, reward, done, []),
     { agent_state := next_state
       traj := env.traj ++ [state_store, state_store_2] })
  else
    (Except.error "Invalid action", env)

/-- Driving one environment instance through a finite sequence of `step`
calls; each list entry is an action together with the two jitter samples
consumed by that call. -/
def run_steps (cfg : GridConfig) (env : EnvState) :
    List (Cell × ℚ × ℚ) → EnvState
  | [] => env
  | q :: rest => run_steps cfg (step cfg env q.1 q.2.1 q.2.2).2 rest

/-- The agent position lies inside the grid `[0, rows-1] × [0, cols-1]`. -/
def in_bounds (cfg : GridConfig) (p : Cell) : Prop :=
  0 ≤ p.1 ∧ p.1 ≤ (cfg.env_size.1 : Int) - 1 ∧
  0 ≤ p.2 ∧ p.2 ≤ (cfg.env_size.2 : Int) - 1

instance (cfg : GridConfig) (p : Cell) : Decidable (in_bounds cfg p) := by
  unfold in_bounds
  exact inferInstance

deriving instance DecidableEq for Except

/-- One of the four direction-specific boundary rules of
`_get_next_state_and_reward` applies to `(state, action)` (conditions
written exactly as in the source). -/
def boundary_rule_fires (cfg : GridConfig) (s a : Cell) : Prop :=
  (s.2 + 1 > (cfg.env_size.2 : Int) - 1 ∧ a = (0, 1)) ∨
  (s.1 + 1 > (cfg.env_size.1 : Int) - 1 ∧ a = (1, 0)) ∨
  (s.2 - 1 < 0 ∧ a = (0, -1)) ∨
  (s.1 - 1 < 0 ∧ a = (-1, 0))

instance (cfg : GridConfig) (s a : Cell) :
    Decidable (boundary_rule_fires cfg s a) := by
  unfold boundary_rule_fires
  exact inferInstance

/-- A variant of the default configuration whose target cell `(1,1)` also
lies in the forbidden set (the misconfiguration discussed by the
specification). -/
def args_overlap : GridConfig where
  env_size := (5, 5)
  start_state := (0, 0)
  target_state := (1, 1)
  forbidden_states := [(1, 1), (2, 2), (3, 1)]
  reward_target := 10
  reward_forbidden := -5
  reward_step := -1/10

/-- The state-index-to-coordinate mapping used by `GridWorld.add_policy`:
`x = state % self.env_size[0]`, `y = state // self.env_size[0]`. -/
def add_policy_coord (cfg : GridConfig) (state : Nat) : Nat × Nat :=
  (state % cfg.env_size.1, state / cfg.env_size.1)

/-- The state-index-to-coordinate mapping used by
`GridWorld.add_state_values`: `x = i % self.env_size[0]`,
`y = i // self.env_size[0]`. -/
def add_state_values_coord (cfg : GridConfig) (i : Nat) : Nat × Nat :=
  (i % cfg.env_size.1, i / cfg.env_size.1)

/-- Any position produced by the transition function from an in-bounds
position under an action of the action space is again in bounds. -/
lemma next_state_in_bounds (cfg : GridConfig) (s a : Cell)
    (hs : in_bounds cfg s) (ha : a ∈ action_space) :
    in_bounds cfg (get_next_state_and_reward cfg s a).1 := by
  obtain ⟨x, y⟩ := s
  simp only [in_bounds] at hs ⊢
  simp only [action_space, List.mem_cons, List.not_mem_nil, or_false] at ha
  rcases ha with rfl | rfl | rfl | rfl | rfl <;>
    · simp only [get_next_state_and_reward]
      norm_num
      split_ifs <;>
        first
        | (simp only [Prod.mk.injEq]; omega)
        | omega
        | (rename_i ht
           rw [← ht]
           simp only [Prod.mk.injEq]
           omega)

/-- The episode state after a `step` call: the agent position becomes the
transition result on a valid action and is unchanged on an invalid one. -/
lemma step_agent_state (cfg : GridConfig) (env : EnvState) (a : Cell)
    (r1 r2 : ℚ) :
    (step cfg env a r1 r2).2.agent_state =
      if a ∈ action_space then
        (get_next_state_and_reward cfg env.agent_state a).1
      else env.agent_state := by
  unfold step
  split_ifs <;> rfl

/-- `run_steps` preserves the in-bounds invariant of the agent position. -/
lemma run_steps_in_bounds (cfg : GridConfig)
    (inputs : List (Cell × ℚ × ℚ)) :
    ∀ env : EnvState, in_bounds cfg env.agent_state →
      in_bounds cfg (run_steps cfg env inputs).agent_state := by
  induction inputs with
  | nil => exact fun env h => h
  | cons q rest ih =>
    intro env h
    refine ih _ ?_
    rw [step_agent_state]
    split_ifs with hmem
    · exact next_state_in_bounds cfg env.agent_state q.1 h hmem
    · exact h

/-- Claim C4 (no hypotheses, so stated for every configuration):
`reset` returns the start cell with an empty info mapping and sets the
episode state to position `start` and trajectory `[start]`. -/
theorem reset_sets_start_and_singleton_traj (cfg : GridConfig) :
    (reset cfg).1 = (cfg.start_state, ([] : Info)) ∧
    (reset cfg).2.agent_state = cfg.start_state ∧
    (reset cfg).2.traj =
      [((cfg.start_state.1 : ℚ), (cfg.start_state.2 : ℚ))] :=
  ⟨rfl, rfl, rfl⟩

/-- The transition rules exactly as the specification words them: seven
priority rules evaluated against `candidate = position + action`
(the refinement reference for comparing against
`get_next_state_and_reward`). -/
def spec_transition (cfg : GridConfig) (s a : Cell) : Cell × ℚ :=
  let candidate : Cell := (s.1 + a.1, s.2 + a.2)
  if a = (0, 1) ∧ candidate.2 > (cfg.env_size.2 : Int) - 1 then
    ((s.1, (cfg.env_size.2 : Int) - 1), cfg.reward_forbidden)
  else if a = (1, 0) ∧ candidate.1 > (cfg.env_size.1 : Int) - 1 then
    (((cfg.env_size.1 : Int) - 1, s.2), cfg.reward_forbidden)
  else if a = (0, -1) ∧ candidate.2 < 0 then
    ((s.1, 0), cfg.reward_forbidden)
  else if a = (-1, 0) ∧ candidate.1 < 0 then
    ((0, s.2), cfg.reward_forbidden)
  else if candidate = cfg.target_state then
    (cfg.target_state, cfg.reward_target)
  else if candidate ∈ cfg.forbidden_states then
    (s, cfg.reward_forbidden)
  else
    (candidate, cfg.reward_step)

/-- On any action of the action space, the source transition function and
the specification's rule list agree. -/
lemma get_next_eq_spec (cfg : GridConfig) (s a : Cell)
    (ha : a ∈ action_space) :
    get_next_state_and_reward cfg s a = spec_transition cfg s a := by
  obtain ⟨x, y⟩ := s
  simp only [action_space, List.mem_cons, List.not_mem_nil, or_false] at ha
  rcases ha with rfl | rfl | rfl | rfl | rfl <;>
    · simp only [get_next_state_and_reward, spec_transition]
      norm_num [Prod.ext_iff]

/-- Claim C1: for every in-bounds current position and every action of the
fixed 5-element action set, `_get_next_state_and_reward` computes position
and reward by exactly the specification's seven priority rules evaluated
against `candidate = position + action`. -/
theorem transition_follows_priority_rules (cfg : GridConfig) (s a : Cell)
    (hs : in_bounds cfg s) (ha : a ∈ action_space) :
    get_next_state_and_reward cfg s a = spec_transition cfg s a :=
  get_next_eq_spec cfg s a ha

/-- Witness for C1: default configuration, position `(0,0)`, action right. -/
theorem transition_follows_priority_rules_witness :
    in_bounds args (0, 0) ∧ ((1, 0) : Cell) ∈ action_space ∧
    get_next_state_and_reward args (0, 0) (1, 0) =
      spec_transition args (0, 0) (1, 0) :=
  ⟨by decide, by decide,
   transition_follows_priority_rules args (0, 0) (1, 0) (by decide)
     (by decide)⟩

/-- Claim C2: for every configuration whose start cell is inside the grid,
after `reset` followed by any finite sequence of `step` calls with actions
from the action set, the agent position stays inside
`[0,rows-1] × [0,cols-1]`. -/
theorem agent_stays_in_bounds (cfg : GridConfig)
    (hstart : in_bounds cfg cfg.start_state)
    (inputs : List (Cell × ℚ × ℚ))
    (hacts : ∀ q ∈ inputs, q.1 ∈ action_space) :
    in_bounds cfg (run_steps cfg (reset cfg).2 inputs).agent_state :=
  run_steps_in_bounds cfg inputs (reset cfg).2 hstart

/-- Witness for C2: default configuration, two steps right then down. -/
theorem agent_stays_in_bounds_witness :
    in_bounds args args.start_state ∧
    (∀ q ∈ [(((1 : Int), (0 : Int)), (0 : ℚ), (0 : ℚ)),
            (((0 : Int), (1 : Int)), (0 : ℚ), (0 : ℚ))],
      q.1 ∈ action_space) ∧
    in_bounds args
      (run_steps args (reset args).2
        [(((1 : Int), (0 : Int)), (0 : ℚ), (0 : ℚ)),
         (((0 : Int), (1 : Int)), (0 : ℚ), (0 : ℚ))]).agent_state :=
  ⟨by decide, by decide,
   agent_stays_in_bounds args (by decide) _ (by decide)⟩

/-- Claim C3: `step` with a value outside the configured 5-element action
set fails with the invalid-action error, and neither the agent position nor
the trajectory is mutated (the episode state is returned unchanged). -/
theorem invalid_action_fails_without_mutation (cfg : GridConfig)
    (env : EnvState) (a : Cell) (r1 r2 : ℚ) (ha : a ∉ action_space) :
    (step cfg env a r1 r2).1 = Except.error "Invalid action" ∧
    (step cfg env a r1 r2).2 = env := by
  unfold step
  rw [if_neg ha]
  exact ⟨rfl, rfl⟩

/-- Witness for C3: the specification's example input `(2,2)` after a
`reset` of the default configuration. -/
theorem invalid_action_fails_without_mutation_witness :
    ((2, 2) : Cell) ∉ action_space ∧
    ((step args (reset args).2 (2, 2) 0 0).1 =
        Except.error "Invalid action" ∧
     (step args (reset args).2 (2, 2) 0 0).2 = (reset args).2) :=
  ⟨by decide,
   invalid_action_fails_without_mutation args (reset args).2 (2, 2) 0 0
     (by decide)⟩

/-- Claim C5: every successful `step` call (action in the action set)
appends exactly two entries to the trajectory, whichever transition rule
fired, and the second appended entry equals the resulting agent position
exactly (only the first entry carries the random jitter/offset). -/
theorem step_appends_two_points (cfg : GridConfig) (env : EnvState)
    (a : Cell) (r1 r2 : ℚ) (ha : a ∈ action_space) :
    ∃ p : ℚ × ℚ,
      (step cfg env a r1 r2).2.traj =
        env.traj ++
          [p, (((step cfg env a r1 r2).2.agent_state.1 : ℚ),
               ((step cfg env a r1 r2).2.agent_state.2 : ℚ))] := by
  refine ⟨((((get_next_state_and_reward cfg env.agent_state a).1.1 : ℚ) +
              3/100 * r1) + 1/5 * (a.1 : ℚ),
           (((get_next_state_and_reward cfg env.agent_state a).1.2 : ℚ) +
              3/100 * r2) + 1/5 * (a.2 : ℚ)), ?_⟩
  simp only [step, ha, if_true]

/-- Witness for C5: default configuration, one step right after `reset`. -/
theorem step_appends_two_points_witness :
    ((1, 0) : Cell) ∈ action_space ∧
    ∃ p : ℚ × ℚ,
      (step args (reset args).2 (1, 0) 0 0).2.traj =
        (reset args).2.traj ++
          [p, (((step args (reset args).2 (1, 0) 0 0).2.agent_state.1 : ℚ),
               ((step args (reset args).2 (1, 0) 0 0).2.agent_state.2 : ℚ))] :=
  ⟨by decide,
   step_appends_two_points args (reset args).2 (1, 0) 0 0 (by decide)⟩

/-- Claim C6: for an in-bounds current position and an action of the action
set, the `done` flag returned by `step` is true iff the resulting position
equals the target cell. -/
theorem done_iff_target (cfg : GridConfig) (env : EnvState) (a : Cell)
    (r1 r2 : ℚ) (hs : in_bounds cfg env.agent_state)
    (ha : a ∈ action_space) (ns : Cell) (rew : ℚ) (d : Bool) (info : Info)
    (hok : (step cfg env a r1 r2).1 = Except.ok (ns, rew, d, info)) :
    d = true ↔ ns = cfg.target_state := by
  simp only [step, ha, if_true, Except.ok.injEq, Prod.mk.injEq] at hok
  obtain ⟨h1, h2, h3, h4⟩ := hok
  subst h1 h3
  simp [is_done]

/-- Witness for C6: default configuration, one step right after `reset`
leads to `(1,0)`, which is not the target, with `done = false`. -/
theorem done_iff_target_witness :
    in_bounds args (reset args).2.agent_state ∧
    ((1, 0) : Cell) ∈ action_space ∧
    ((false = true) ↔ ((1, 0) : Cell) = args.target_state) :=
  ⟨by decide, by decide,
   done_iff_target args (reset args).2 (1, 0) 0 0 (by decide) (by decide)
     (1, 0) args.reward_step false [] rfl⟩

/-- The stay action from a non-target, non-forbidden cell takes transition
rule 7: the position is unchanged and the reward is the step reward. -/
lemma stay_transition (cfg : GridConfig) (s : Cell)
    (hnt : s ≠ cfg.target_state) (hnf : s ∉ cfg.forbidden_states) :
    get_next_state_and_reward cfg s (0, 0) = (s, cfg.reward_step) := by
  obtain ⟨x, y⟩ := s
  simp only [ne_eq, Prod.ext_iff] at hnt
  simp only [get_next_state_and_reward]
  norm_num [Prod.ext_iff]
  rw [if_neg hnt, if_neg hnf]
  exact ⟨⟨rfl, rfl⟩, rfl⟩

/-- Claim C7: from any in-bounds position that is neither the target nor a
forbidden cell, `step` with the stay action `(0,0)` leaves the agent
position unchanged and returns reward `reward_step`. -/
theorem stay_action_keeps_position (cfg : GridConfig) (env : EnvState)
    (r1 r2 : ℚ) (hs : in_bounds cfg env.agent_state)
    (hnt : env.agent_state ≠ cfg.target_state)
    (hnf : env.agent_state ∉ cfg.forbidden_states) :
    (step cfg env (0, 0) r1 r2).2.agent_state = env.agent_state ∧
    (step cfg env (0, 0) r1 r2).1 =
      Except.ok (env.agent_state, cfg.reward_step, false, []) := by
  have hmem : ((0, 0) : Cell) ∈ action_space := by decide
  have htrans : get_next_state_and_reward cfg env.agent_state (0, 0) =
      (env.agent_state, cfg.reward_step) := stay_transition cfg _ hnt hnf
  have hdone : is_done cfg env.agent_state = false := by
    simp [is_done, hnt]
  constructor
  · rw [step_agent_state, if_pos hmem, htrans]
  · simp only [step, hmem, if_true, htrans, hdone]

/-- Witness for C7: default configuration after `reset`, staying at the
start cell `(0,0)`. -/
theorem stay_action_keeps_position_witness :
    in_bounds args (reset args).2.agent_state ∧
    (reset args).2.agent_state ≠ args.target_state ∧
    (reset args).2.agent_state ∉ args.forbidden_states ∧
    ((step args (reset args).2 (0, 0) 0 0).2.agent_state =
        (reset args).2.agent_state ∧
     (step args (reset args).2 (0, 0) 0 0).1 =
        Except.ok ((reset args).2.agent_state, args.reward_step, false, [])) :=
  ⟨by decide, by decide, by decide,
   stay_action_keeps_position args (reset args).2 0 0 (by decide) (by decide)
     (by decide)⟩

/-- Claim C8: when the target cell is also a forbidden cell, any in-set
action from an in-bounds position whose candidate equals the target (with
no boundary rule firing) moves the agent to the target with the target
reward: the goal check takes precedence over the forbidden check. -/
theorem goal_check_precedes_forbidden_check (cfg : GridConfig) (s a : Cell)
    (htf : cfg.target_state ∈ cfg.forbidden_states)
    (hs : in_bounds cfg s) (ha : a ∈ action_space)
    (hcand : (s.1 + a.1, s.2 + a.2) = cfg.target_state)
    (hnb : ¬ boundary_rule_fires cfg s a) :
    get_next_state_and_reward cfg s a =
      (cfg.target_state, cfg.reward_target) := by
  simp only [boundary_rule_fires, not_or] at hnb
  obtain ⟨h1, h2, h3, h4⟩ := hnb
  simp only [get_next_state_and_reward]
  rw [if_neg h1, if_neg h2, if_neg h3, if_neg h4, if_pos hcand]

/-- Witness for C8: target `(1,1)` is forbidden in `args_overlap`; moving
down from `(1,0)` reaches it and earns the target reward. -/
theorem goal_check_precedes_forbidden_check_witness :
    args_overlap.target_state ∈ args_overlap.forbidden_states ∧
    in_bounds args_overlap (1, 0) ∧
    ((0, 1) : Cell) ∈ action_space ∧
    (((1, 0) : Cell).1 + ((0, 1) : Cell).1,
     ((1, 0) : Cell).2 + ((0, 1) : Cell).2) = args_overlap.target_state ∧
    ¬ boundary_rule_fires args_overlap (1, 0) (0, 1) ∧
    get_next_state_and_reward args_overlap (1, 0) (0, 1) =
      (args_overlap.target_state, args_overlap.reward_target) :=
  ⟨by decide, by decide, by decide, by decide, by decide,
   goal_check_precedes_forbidden_check args_overlap (1, 0) (0, 1)
     (by decide) (by decide) (by decide) (by decide) (by decide)⟩

/-- Claim C9: for every state index below `num_states`, the policy overlay
and the state-value overlay both map the index to
`x = i % rows, y = i // rows`, and the two mappings agree. -/
theorem overlay_consumers_share_coord_mapping (cfg : GridConfig) (i : Nat)
    (h : i < cfg.num_states) :
    add_policy_coord cfg i = (i % cfg.env_size.1, i / cfg.env_size.1) ∧
    add_state_values_coord cfg i =
      (i % cfg.env_size.1, i / cfg.env_size.1) ∧
    add_policy_coord cfg i = add_state_values_coord cfg i :=
  ⟨rfl, rfl, rfl⟩

/-- Witness for C9: index 7 of the default 5×5 configuration maps to
`(2, 1)` under both overlays. -/
theorem overlay_consumers_share_coord_mapping_witness :
    7 < args.num_states ∧
    (add_policy_coord args 7 = (7 % args.env_size.1, 7 / args.env_size.1) ∧
     add_state_values_coord args 7 =
       (7 % args.env_size.1, 7 / args.env_size.1) ∧
     add_policy_coord args 7 = add_state_values_coord args 7) :=
  ⟨by decide, overlay_consumers_share_coord_mapping args 7 (by decide)⟩

/-- Claim C10: whenever one of the four direction-specific boundary rules
fires from an in-bounds position, the resulting position is exactly the
current position: a wall hit never moves the agent. -/
theorem wall_hit_never_moves (cfg : GridConfig) (s a : Cell)
    (hs : in_bounds cfg s) (hf : boundary_rule_fires cfg s a) :
    (get_next_state_and_reward cfg s a).1 = s := by
  obtain ⟨x, y⟩ := s
  simp only [in_bounds] at hs
  simp only [boundary_rule_fires] at hf
  rcases hf with ⟨hc, rfl⟩ | ⟨hc, rfl⟩ | ⟨hc, rfl⟩ | ⟨hc, rfl⟩ <;>
    · simp only [get_next_state_and_reward] at hc ⊢
      norm_num [Prod.ext_iff] at hc ⊢
      split_ifs <;>
        first
        | omega
        | (simp only [Prod.mk.injEq, Prod.ext_iff, true_and, and_true]
           omega)

/-- Witness for C10: moving up from the start corner `(0,0)` of the default
configuration leaves the agent exactly at `(0,0)`. -/
theorem wall_hit_never_moves_witness :
    in_bounds args (0, 0) ∧
    boundary_rule_fires args (0, 0) (0, -1) ∧
    (get_next_state_and_reward args (0, 0) (0, -1)).1 = (0, 0) :=
  ⟨by decide, by decide,
   wall_hit_never_moves args (0, 0) (0, -1) (by decide) (by decide)⟩
